import Mathlib

/-!
Shallow embedding of the `iaconnector` library (files `iaconnector/__init__.py`,
`iaconnector/oauth.py`, `iaconnector/api.py`, `iaconnector/exceptions.py`).

Python objects become Lean structures; mutation becomes explicit state passing.
A Python call that can raise returns the final state paired with an optional
exception (mutations performed before the raise are visible in the returned
state, matching Python semantics), or an `Except` when no state is mutated.
Object identity (needed for the memoized OAuth session) is modelled with an
allocation counter in the consumer state: each freshly created session object
carries a unique `sid`.
-/

/-- Python exceptions that the embedded code can raise. -/
inductive PyExc
  | keyError (key : String)
  | typeError
  | attributeError
  | jsonDecodeError
  | assertionError
  | valueError (msg : String)
  deriving DecidableEq, Repr

/-- The exception classes of `iaconnector/exceptions.py` that subclass
`APIError` (plus `APIError` itself). -/
inductive ErrKind
  | apiError
  | notLoggedInError
  | unknownDeviceError
  | signupError
  | otherError
  deriving DecidableEq, Repr

/-- The `error_code` class attribute of each exception class
(`exceptions.py`): `APIError.error_code = None`, `NotLoggedInError = 403`,
`UnknownDeviceError = 406`, `SignupError = 412`, `OtherError = 500`. -/
def ErrKind.error_code : ErrKind → Option Int
  | .apiError => none
  | .notLoggedInError => some 403
  | .unknownDeviceError => some 406
  | .signupError => some 412
  | .otherError => some 500

/-- `APIError.__subclasses__()`: the direct subclasses of `APIError`
declared in `exceptions.py`, in declaration order. -/
def apiErrorSubclasses : List ErrKind :=
  [.notLoggedInError, .unknownDeviceError, .signupError, .otherError]

/-- The dictionary built by the loop in `APIConsumer._get_exception`:
for each subclass with a non-`None` `error_code`, map that code to the class. -/
def errorTable : List (Int × ErrKind) :=
  apiErrorSubclasses.foldl
    (fun tbl cls =>
      match cls.error_code with
      | some c => tbl ++ [(c, cls)]
      | none => tbl)
    []

/-- `APIConsumer._get_exception(error_code)` (`api.py` lines 46-60):
`errors.get(error_code, APIError)`.  A `None` argument misses every
(integer) key of the dictionary, hence falls back to `APIError`. -/
def APIConsumer.get_exception (error_code : Option Int) : ErrKind :=
  match error_code with
  | some c => ((errorTable.lookup c).getD .apiError)
  | none => .apiError

/-- JSON values, as decoded by `response.json()` in `APIConsumer._call`. -/
inductive JV
  | jnull
  | jbool (b : Bool)
  | jnum (n : Int)
  | jstr (s : String)
  | jarr (elems : List JV)
  | jobj (fields : List (String × JV))

/-- `needle` is a leading segment of `hay` (character lists). -/
def charsLeading : List Char → List Char → Bool
  | [], _ => true
  | _ :: _, [] => false
  | a :: as, b :: bs => a == b && charsLeading as bs

/-- `needle` occurs contiguously inside `hay` (character lists). -/
def charsInside (needle : List Char) : List Char → Bool
  | [] => charsLeading needle []
  | c :: cs => charsLeading needle (c :: cs) || charsInside needle cs

/-- Python's substring test `needle in hay` on strings. -/
def strInside (needle hay : String) : Bool :=
  charsInside needle.toList hay.toList

/-- Python's `key in x` on a decoded JSON value: key membership for a dict,
substring test for a string, element equality for a list (a string key only
ever equals a string element), `TypeError` for null/bool/number. -/
def pyContains (v : JV) (key : String) : Except PyExc Bool :=
  match v with
  | .jobj fields => .ok ((fields.lookup key).isSome)
  | .jstr s => .ok (strInside key s)
  | .jarr elems => .ok (elems.any (fun e => match e with
      | .jstr s => s == key
      | _ => false))
  | _ => .error .typeError

/-- Python's `x[key]` with a string key on a decoded JSON value:
dict lookup (raising `KeyError` when absent), `TypeError` otherwise
(string and list subscripts require integer indices). -/
def pySubscript (v : JV) (key : String) : Except PyExc JV :=
  match v with
  | .jobj fields =>
    match fields.lookup key with
    | some x => .ok x
    | none => .error (.keyError key)
  | _ => .error .typeError

/-- Python's `x.get(key)` on a decoded JSON value: only dicts have `.get`
(default `None`); anything else raises `AttributeError`. -/
def pyGet (v : JV) (key : String) : Except PyExc JV :=
  match v with
  | .jobj fields => .ok ((fields.lookup key).getD .jnull)
  | _ => .error .attributeError

/-- What a call to `APIConsumer._call` does once the HTTP response is in hand:
either a `result` is returned, or an exception is raised. -/
inductive Raised
  | api (kind : ErrKind) (message : JV)
  | invalidResponse (cause : PyExc)
  | uncaught (e : PyExc)

/-- Outcome of the response-processing part of `APIConsumer._call`. -/
inductive CallResult
  | success (result : JV)
  | raised (r : Raised)

/-- Is the outcome the "Invalid response from server" `APIError`? -/
def CallResult.isInvalidResponse : CallResult → Bool
  | .raised (.invalidResponse _) => true
  | _ => false

/-- Is the outcome a normal return? -/
def CallResult.isSuccess : CallResult → Bool
  | .success _ => true
  | _ => false

/-- The HTTP response body handed to `response.json()`: either not valid
JSON (so `response.json()` raises a JSON decode error) or a decoded value. -/
inductive Body
  | notJson (raw : String)
  | json (v : JV)

/-- `_get_exception(error['code'])` where the code is a decoded JSON value:
the dictionary built in `_get_exception` has integer keys, so only an
integer code can hit a specific class; everything else falls back to
`APIError`. -/
def getExceptionJV (code : JV) : ErrKind :=
  match code with
  | .jnum n => APIConsumer.get_exception (some n)
  | _ => APIConsumer.get_exception none

/-- The `try: result = response_json['result'] ... except (TypeError, KeyError)`
block at the end of `APIConsumer._call` (`api.py` lines 111-117). -/
def extractResult (v : JV) : CallResult :=
  match pySubscript v "result" with
  | .ok r => .success r
  | .error e =>
    match e with
    | .typeError => .raised (.invalidResponse .typeError)
    | .keyError k => .raised (.invalidResponse (.keyError k))
    | other => .raised (.uncaught other)

/-- The branch of `APIConsumer._call` taken when
`'error' in response_json and response_json['error'] is not None`
(`api.py` lines 104-110): raise the registered exception when the error
object has both `code` and `message`, else `APIError(error.get('message'))`. -/
def handleErrorObject (error : JV) : CallResult :=
  match pyContains error "code" with
  | .error e => .raised (.uncaught e)
  | .ok hasCode =>
    if hasCode then
      match pyContains error "message" with
      | .error e => .raised (.uncaught e)
      | .ok hasMsg =>
        if hasMsg then
          match pySubscript error "code" with
          | .error e => .raised (.uncaught e)
          | .ok code =>
            match pySubscript error "message" with
            | .error e => .raised (.uncaught e)
            | .ok msg => .raised (.api (getExceptionJV code) msg)
        else
          match pyGet error "message" with
          | .error e => .raised (.uncaught e)
          | .ok msg => .raised (.api .apiError msg)
    else
      match pyGet error "message" with
      | .error e => .raised (.uncaught e)
      | .ok msg => .raised (.api .apiError msg)

/-- Response processing of `APIConsumer._call` (`api.py` lines 100-117):
decode the body (`response.json()` raises on non-JSON, uncaught), take the
error branch when a non-null `error` is present, otherwise extract `result`,
turning `TypeError`/`KeyError` into `APIError("Invalid response from server: ...")`. -/
def handleResponse (body : Body) : CallResult :=
  match body with
  | .notJson _ => .raised (.uncaught .jsonDecodeError)
  | .json v =>
    match pyContains v "error" with
    | .error e => .raised (.uncaught e)
    | .ok hasError =>
      if hasError then
        match pySubscript v "error" with
        | .error e => .raised (.uncaught e)
        | .ok error =>
          match error with
          | .jnull => extractResult v
          | err => handleErrorObject err
      else
        extractResult v

/-- Python truthiness of an optional string: `None` and `''` are falsy. -/
def truthyOptStr : Option String → Bool
  | none => false
  | some s => s != ""

/-- Replace the value stored under `key` in an association list
(Python `headers['User-Agent'] += ...` on an existing key). -/
def updateKey (key : String) (f : String → String) :
    List (String × String) → List (String × String)
  | [] => []
  | (k, v) :: rest =>
    if k == key then (k, f v) :: rest else (k, v) :: updateKey key f rest

/-- The header construction of `APIConsumer._call` (`api.py` lines 75-83):
start from `{'User-Agent': 'IAConnector'}`, add
`Authorization: Bearer <token>` only when `self.access_token` is truthy,
append ` PREVIEWMODE` to the user agent in preview mode. -/
def buildHeaders (access_token : Option String) (preview_mode : Bool) :
    List (String × String) :=
  let headers := [("User-Agent", "IAConnector")]
  let headers :=
    if truthyOptStr access_token then
      headers ++ [("Authorization", "Bearer " ++ access_token.getD "")]
    else headers
  if preview_mode then
    updateKey "User-Agent" (fun v => v ++ " PREVIEWMODE") headers
  else headers

/-- The memoized `OAuth2Session` object created in `OAuthConsumer._get_session`
(`oauth.py` lines 63-68), bound to client id, scope and redirect URI.
`sid` models Python object identity: each construction allocates a fresh id. -/
structure Session where
  sid : Nat
  client_id : String
  scope : List String
  redirect_uri : String
  deriving DecidableEq, Repr

/-- State of an `OAuthConsumer` instance (`oauth.py`).  `alloc` is the
allocation counter backing the `sid` of freshly created `Session` objects.
The `connector` back-reference is modelled at the coordinator level (the
propagation functions take the coordinator state explicitly). -/
structure OAuthConsumer where
  client_id : String
  client_secret : String
  redirect_uri : String
  scope : List String
  access_token : Option String
  renew_token : Option String
  token_expiry : Option Int
  base_url : String
  session : Option Session
  alloc : Nat
  deriving DecidableEq, Repr

/-- The class attribute `OAuthConsumer.base_url` (`oauth.py` line 16). -/
def oauthDefaultBaseUrl : String := "https://www.inter-actief.utwente.nl/o/"

/-- Base-URL normalization in both constructors
(`oauth.py` lines 45-48, `api.py` lines 36-39):
`if base_url[-1:] != '/': base_url += '/'`. -/
def normalizeBaseUrl (base_url : String) : String :=
  if base_url.endsWith "/" then base_url else base_url ++ "/"

/-- `OAuthConsumer.__init__` (`oauth.py` lines 23-55): store the credentials
and optional tokens, set `token_expiry = None` and `_session = None`, default
the base URL to the class attribute, normalizing a caller-supplied one. -/
def OAuthConsumer.init (client_id client_secret redirect_uri : String)
    (scope : List String) (access_token renew_token : Option String)
    (base_url : Option String) : OAuthConsumer :=
  { client_id := client_id
    client_secret := client_secret
    redirect_uri := redirect_uri
    scope := scope
    access_token := access_token
    renew_token := renew_token
    token_expiry := none
    base_url :=
      match base_url with
      | none => oauthDefaultBaseUrl
      | some u => normalizeBaseUrl u
    session := none
    alloc := 0 }

/-- `OAuthConsumer._get_session` (`oauth.py` lines 57-69): create the
`OAuth2Session` on first access, store it, and return the stored object on
every later access. -/
def OAuthConsumer.get_session (o : OAuthConsumer) : Session × OAuthConsumer :=
  match o.session with
  | some s => (s, o)
  | none =>
    let s : Session :=
      { sid := o.alloc
        client_id := o.client_id
        scope := o.scope
        redirect_uri := o.redirect_uri }
    (s, { o with session := some s, alloc := o.alloc + 1 })

/-- A decoded token-endpoint response dictionary as used by
`fetch_access_token` / `renew_access_token`; `none` models an absent key
(so that subscripting it raises `KeyError`). -/
structure TokenResponse where
  access_token : Option String
  refresh_token : Option String
  expires_in : Option Int
  deriving DecidableEq, Repr

/-- `OAuthConsumer.fetch_access_token` (`oauth.py` lines 91-111).
`resp` is what `self._get_session().fetch_token(...)` does: raise, or return
a response dictionary.  The field assignments run in source order, so a
response missing a key leaves the fields assigned before the `KeyError`
already overwritten.  `now` stands for `datetime.utcnow()`.
Returns the final consumer state and the escaping exception, if any.
(The subsequent `_propagate_tokens` call touches only the coordinator and
the API consumer, never this consumer's own fields.) -/
def OAuthConsumer.fetch_access_token (o : OAuthConsumer) (now : Int)
    (resp : Except PyExc TokenResponse) : OAuthConsumer × Option PyExc :=
  let o := (OAuthConsumer.get_session o).2
  match resp with
  | .error e => (o, some e)
  | .ok r =>
    match r.access_token with
    | none => (o, some (.keyError "access_token"))
    | some tok =>
      let o := { o with access_token := some tok }
      match r.refresh_token with
      | none => (o, some (.keyError "refresh_token"))
      | some ref =>
        let o := { o with renew_token := some ref }
        match r.expires_in with
        | none => (o, some (.keyError "expires_in"))
        | some sec => ({ o with token_expiry := some (now + sec) }, none)

/-- `OAuthConsumer.renew_access_token` (`oauth.py` lines 113-128): like the
fetch, but via the refresh endpoint and without touching `token_expiry`.
(The `{token:s}` debug format at line 119, like the `{json:s}` one at
`api.py` line 102, is side-effect-free under the Python 2 semantics this
package targets.) -/
def OAuthConsumer.renew_access_token (o : OAuthConsumer)
    (resp : Except PyExc TokenResponse) : OAuthConsumer × Option PyExc :=
  let o := (OAuthConsumer.get_session o).2
  match resp with
  | .error e => (o, some e)
  | .ok r =>
    match r.access_token with
    | none => (o, some (.keyError "access_token"))
    | some tok =>
      let o := { o with access_token := some tok }
      match r.refresh_token with
      | none => (o, some (.keyError "refresh_token"))
      | some ref => ({ o with renew_token := some ref }, none)

/-- `OAuthConsumer.get_access_token` (`oauth.py` lines 130-138): raise
`ValueError` when no access token is present, else return it. -/
def OAuthConsumer.get_access_token (o : OAuthConsumer) :
    Except PyExc String :=
  match o.access_token with
  | none => .error (.valueError
      "There is no access token present. Request a token using fetch_access_token.")
  | some tok => .ok tok

/-- `OAuthConsumer.get_renew_token` (`oauth.py` lines 140-148). -/
def OAuthConsumer.get_renew_token (o : OAuthConsumer) :
    Except PyExc String :=
  match o.renew_token with
  | none => .error (.valueError
      "There is no renew token present. Request a token using fetch_renew_token.")
  | some tok => .ok tok

/-- `OAuthConsumer.get_token_expiry` (`oauth.py` lines 150-156). -/
def OAuthConsumer.get_token_expiry (o : OAuthConsumer) : Option Int :=
  o.token_expiry

/-- State of an `APIConsumer` instance (`api.py` lines 25-44). -/
structure APIConsumer where
  access_token : Option String
  preview_mode : Bool
  base_url : String
  deriving DecidableEq, Repr

/-- The class attribute `APIConsumer.base_url` (`api.py` line 23). -/
def apiDefaultBaseUrl : String := "https://api.ia.utwente.nl/app/lennart/"

/-- `APIConsumer.__init__` (`api.py` lines 25-44). -/
def APIConsumer.init (access_token : Option String)
    (base_url : Option String) (preview_mode : Bool) : APIConsumer :=
  { access_token := access_token
    preview_mode := preview_mode
    base_url :=
      match base_url with
      | none => apiDefaultBaseUrl
      | some u => normalizeBaseUrl u }

/-- The `source` argument of `IAConnector.propagate_tokens`, matched with
`isinstance(source, APIConsumer)` / `isinstance(source, OAuthConsumer)` in
the original; `external` covers `None` and any unrelated object. -/
inductive Src
  | fromAPI
  | fromOAuth
  | external
  deriving DecidableEq, Repr

/-- State of an `IAConnector` instance (`__init__.py` lines 23-25):
at most one OAuth consumer and at most one API consumer. -/
structure IAConnector where
  oauth : Option OAuthConsumer
  api : Option APIConsumer
  deriving DecidableEq, Repr

/-- `IAConnector.__init__` (`__init__.py` lines 23-25). -/
def IAConnector.init : IAConnector :=
  { oauth := none, api := none }

/-- `IAConnector.init_oauth` (`__init__.py` lines 27-50):
`assert self._oauth is None`, then construct the `OAuthConsumer`.
Returns the final coordinator state and the escaping exception, if any
(a failed `assert` raises before anything is assigned). -/
def IAConnector.init_oauth (c : IAConnector)
    (client_id client_secret : String) (scope : List String)
    (redirect_url : String) (access_token renew_token : Option String)
    (base_url : Option String) : IAConnector × Option PyExc :=
  match c.oauth with
  | some _ => (c, some .assertionError)
  | none =>
    ({ c with oauth := some (OAuthConsumer.init client_id client_secret
        redirect_url scope access_token renew_token base_url) }, none)

/-- `IAConnector.init_api` (`__init__.py` lines 52-62):
`assert self._api is None`, then construct the `APIConsumer`. -/
def IAConnector.init_api (c : IAConnector) (base_url : Option String) :
    IAConnector × Option PyExc :=
  match c.api with
  | some _ => (c, some .assertionError)
  | none =>
    ({ c with api := some (APIConsumer.init none base_url false) }, none)

/-- `IAConnector.propagate_tokens` (`__init__.py` lines 64-93):
push a non-`None` access token to the API consumer unless it is the source,
then push non-`None` access and renew tokens to the OAuth consumer unless it
is the source.  `None` values never overwrite anything. -/
def IAConnector.propagate_tokens (c : IAConnector)
    (access_token renew_token : Option String) (source : Src) : IAConnector :=
  let c :=
    if source ≠ Src.fromAPI then
      match c.api with
      | some a =>
        match access_token with
        | some tok => { c with api := some { a with access_token := some tok } }
        | none => c
      | none => c
    else c
  if source ≠ Src.fromOAuth then
    match c.oauth with
    | some o =>
      let o :=
        match access_token with
        | some tok => { o with access_token := some tok }
        | none => o
      let o :=
        match renew_token with
        | some tok => { o with renew_token := some tok }
        | none => o
      { c with oauth := some o }
    | none => c
  else c

/-! ### Sample states used by witnesses and counterexamples -/

/-- A concrete OAuth consumer with both tokens present. -/
def sampleOAuth : OAuthConsumer :=
  OAuthConsumer.init "cid" "secret" "https://app/cb" ["read"]
    (some "oldA") (some "oldR") none

/-- A concrete API consumer with a token present. -/
def sampleAPI : APIConsumer := APIConsumer.init (some "apiTok") none false

/-- A concrete coordinator with both consumers initialized. -/
def sampleConn : IAConnector :=
  { oauth := some sampleOAuth, api := some sampleAPI }

/-! ### Claims -/

/-- C1: with both consumers initialized, `propagate_tokens` with a non-null
access token sourced from the OAuth consumer sets the API consumer's access
token to that value and leaves the OAuth consumer record entirely unchanged;
a propagation sourced from the API consumer never writes into the API
consumer. -/
theorem propagate_tokens_anti_echo (c : IAConnector) (o : OAuthConsumer)
    (a : APIConsumer) (tok : String) (rt : Option String)
    (ho : c.oauth = some o) (ha : c.api = some a) :
    ((c.propagate_tokens (some tok) rt Src.fromOAuth).api
        = some { a with access_token := some tok }
      ∧ (c.propagate_tokens (some tok) rt Src.fromOAuth).oauth = some o)
    ∧ (∀ atok rtok, (c.propagate_tokens atok rtok Src.fromAPI).api = c.api) := by
  constructor
  · simp [IAConnector.propagate_tokens, ho, ha]
  · intro atok rtok
    simp [IAConnector.propagate_tokens, ho, ha]

/-- Witness for C1 at a concrete coordinator. -/
theorem propagate_tokens_anti_echo_witness :
    sampleConn.oauth = some sampleOAuth ∧ sampleConn.api = some sampleAPI ∧
    ((sampleConn.propagate_tokens (some "X") none Src.fromOAuth).api
        = some { sampleAPI with access_token := some "X" }
      ∧ (sampleConn.propagate_tokens (some "X") none Src.fromOAuth).oauth
        = some sampleOAuth)
    ∧ (sampleConn.propagate_tokens (some "Z") (some "W") Src.fromAPI).api
        = sampleConn.api :=
  ⟨rfl, rfl,
    (propagate_tokens_anti_echo sampleConn sampleOAuth sampleAPI "X" none
      rfl rfl).1,
    (propagate_tokens_anti_echo sampleConn sampleOAuth sampleAPI "X" none
      rfl rfl).2 (some "Z") (some "W")⟩

/-- C2: `propagate_tokens` never overwrites with a null value: a null access
token leaves the API consumer untouched and both consumers' access tokens
unchanged; a null renew token leaves the OAuth consumer's renew token
unchanged; a non-null renew token alone updates only the OAuth consumer's
renew token; in particular `propagate_tokens(renew_token="Y", source=None)`
leaves both access tokens unchanged and sets the OAuth renew token to "Y". -/
theorem propagate_tokens_null_preserving (c : IAConnector) (o : OAuthConsumer) :
    (∀ rt src, (c.propagate_tokens none rt src).api = c.api
      ∧ ((c.propagate_tokens none rt src).oauth).map (fun x => x.access_token)
          = c.oauth.map (fun x => x.access_token))
    ∧ (∀ atok src, ((c.propagate_tokens atok none src).oauth).map
          (fun x => x.renew_token) = c.oauth.map (fun x => x.renew_token))
    ∧ ((c.propagate_tokens none (some "Y") Src.external).api = c.api
      ∧ ((c.propagate_tokens none (some "Y") Src.external).oauth).map
          (fun x => x.access_token) = c.oauth.map (fun x => x.access_token)
      ∧ (c.oauth = some o →
          (c.propagate_tokens none (some "Y") Src.external).oauth
            = some { o with renew_token := some "Y" })) := by
  refine ⟨?_, ?_, ?_, ?_, ?_⟩
  · intro rt src
    cases src <;> cases hc : c.oauth <;> cases ha : c.api <;> cases rt <;>
      simp [IAConnector.propagate_tokens, hc, ha]
  · intro atok src
    cases src <;> cases hc : c.oauth <;> cases ha : c.api <;> cases atok <;>
      simp [IAConnector.propagate_tokens, hc, ha]
  · cases hc : c.oauth <;> cases ha : c.api <;>
      simp [IAConnector.propagate_tokens, hc, ha]
  · cases hc : c.oauth <;> cases ha : c.api <;>
      simp [IAConnector.propagate_tokens, hc, ha]
  · intro ho
    cases ha : c.api <;> simp [IAConnector.propagate_tokens, ho, ha]

/-- Witness for C2 at a concrete coordinator. -/
theorem propagate_tokens_null_preserving_witness :
    sampleConn.oauth = some sampleOAuth ∧
    ((sampleConn.propagate_tokens none (some "R") Src.external).api
        = sampleConn.api
      ∧ ((sampleConn.propagate_tokens none (some "R") Src.external).oauth).map
          (fun x => x.access_token)
            = sampleConn.oauth.map (fun x => x.access_token))
    ∧ ((sampleConn.propagate_tokens (some "Z") none Src.external).oauth).map
        (fun x => x.renew_token)
          = sampleConn.oauth.map (fun x => x.renew_token)
    ∧ (sampleConn.propagate_tokens none (some "Y") Src.external).oauth
        = some { sampleOAuth with renew_token := some "Y" } :=
  ⟨rfl,
    (propagate_tokens_null_preserving sampleConn sampleOAuth).1
      (some "R") Src.external,
    (propagate_tokens_null_preserving sampleConn sampleOAuth).2.1
      (some "Z") Src.external,
    (propagate_tokens_null_preserving sampleConn sampleOAuth).2.2.2.2 rfl⟩

/-- C6: `init_oauth` and `init_api` each succeed at most once per coordinator:
a second invocation fails with the assertion error and leaves both consumer
bindings unchanged; a first invocation succeeds, sets its own binding and
leaves the other untouched, and neither operation ever clears a binding, so
the bindings only move one-way from empty to initialized. -/
theorem init_once_contract (c : IAConnector) (ci cs ru : String)
    (sc : List String) (atok rtok bu bu' : Option String) :
    (c.oauth.isSome →
      c.init_oauth ci cs sc ru atok rtok bu = (c, some PyExc.assertionError))
    ∧ (c.api.isSome → c.init_api bu' = (c, some PyExc.assertionError))
    ∧ (c.oauth = none →
      (c.init_oauth ci cs sc ru atok rtok bu).2 = none
        ∧ (c.init_oauth ci cs sc ru atok rtok bu).1.oauth.isSome
        ∧ (c.init_oauth ci cs sc ru atok rtok bu).1.api = c.api)
    ∧ (c.api = none →
      (c.init_api bu').2 = none
        ∧ (c.init_api bu').1.api.isSome
        ∧ (c.init_api bu').1.oauth = c.oauth)
    ∧ (c.oauth.isSome → (c.init_oauth ci cs sc ru atok rtok bu).1.oauth.isSome)
    ∧ (c.api.isSome → (c.init_api bu').1.api.isSome)
    ∧ ((c.init_oauth ci cs sc ru atok rtok bu).1.api = c.api)
    ∧ ((c.init_api bu').1.oauth = c.oauth) := by
  refine ⟨?_, ?_, ?_, ?_, ?_, ?_, ?_, ?_⟩ <;>
    cases ho : c.oauth <;> cases ha : c.api <;>
      simp [IAConnector.init_oauth, IAConnector.init_api, ho, ha]

/-- Witness for C6: on a coordinator with both consumers initialized, both
re-initializations fail with the assertion error and change nothing. -/
theorem init_once_contract_witness :
    sampleConn.oauth.isSome ∧ sampleConn.api.isSome ∧
    sampleConn.init_oauth "c" "s" ["read"] "https://app/cb" none none none
        = (sampleConn, some PyExc.assertionError) ∧
    sampleConn.init_api none = (sampleConn, some PyExc.assertionError) :=
  ⟨rfl, rfl,
    (init_once_contract sampleConn "c" "s" "https://app/cb" ["read"]
      none none none none).1 rfl,
    (init_once_contract sampleConn "c" "s" "https://app/cb" ["read"]
      none none none none).2.1 rfl⟩

/-- C7: the protocol session is memoized: after any access the stored session
is exactly the returned one, a second access returns the identical session
object (same allocation id) with the state unchanged, and an access on a
consumer that already holds a session returns that stored session without
touching the state. -/
theorem get_session_memoized (o : OAuthConsumer) (s : Session) :
    (o.get_session).2.session = some (o.get_session).1
    ∧ OAuthConsumer.get_session (o.get_session).2
        = ((o.get_session).1, (o.get_session).2)
    ∧ (o.session = some s → o.get_session = (s, o))
    ∧ (o.session = none → (o.get_session).1.sid = o.alloc
        ∧ (o.get_session).2.alloc = o.alloc + 1) := by
  refine ⟨?_, ?_, ?_, ?_⟩ <;>
    cases hs : o.session <;> simp [OAuthConsumer.get_session, hs]

/-- The consumer state after a first session access, holding the memoized
session. -/
def sessionedOAuth : OAuthConsumer := (sampleOAuth.get_session).2

/-- The session object created by the first access on `sampleOAuth`. -/
def sampleSession : Session :=
  { sid := 0, client_id := "cid", scope := ["read"],
    redirect_uri := "https://app/cb" }

/-- Witness for C7: two accesses on a fresh consumer yield the same session,
and an access on a consumer already holding a session returns it unchanged. -/
theorem get_session_memoized_witness :
    (sampleOAuth.get_session).2.session = some (sampleOAuth.get_session).1
    ∧ OAuthConsumer.get_session (sampleOAuth.get_session).2
        = ((sampleOAuth.get_session).1, (sampleOAuth.get_session).2)
    ∧ sessionedOAuth.get_session = (sampleSession, sessionedOAuth)
    ∧ ((sampleOAuth.get_session).1.sid = sampleOAuth.alloc
        ∧ (sampleOAuth.get_session).2.alloc = sampleOAuth.alloc + 1) :=
  ⟨(get_session_memoized sampleOAuth sampleSession).1,
    (get_session_memoized sampleOAuth sampleSession).2.1,
    (get_session_memoized sessionedOAuth sampleSession).2.2.1 rfl,
    (get_session_memoized sampleOAuth sampleSession).2.2.2 rfl⟩

/-- C8: `get_access_token` (resp. `get_renew_token`) raises the
"no token present" `ValueError` when the stored token is null and returns
exactly the stored value otherwise; after a successful `fetch_access_token`
it returns the freshly stored access token. -/
theorem get_token_contract (o : OAuthConsumer) (t : String) :
    (o.access_token = none → o.get_access_token = .error (.valueError
      "There is no access token present. Request a token using fetch_access_token."))
    ∧ (o.access_token = some t → o.get_access_token = .ok t)
    ∧ (o.renew_token = none → o.get_renew_token = .error (.valueError
      "There is no renew token present. Request a token using fetch_renew_token."))
    ∧ (o.renew_token = some t → o.get_renew_token = .ok t)
    ∧ (∀ now : Int, ∀ tok ref : String, ∀ sec : Int,
        (o.fetch_access_token now (.ok ⟨some tok, some ref, some sec⟩)).2 = none
        ∧ (o.fetch_access_token now
            (.ok ⟨some tok, some ref, some sec⟩)).1.get_access_token = .ok tok) := by
  refine ⟨?_, ?_, ?_, ?_, ?_⟩
  · intro h
    simp [OAuthConsumer.get_access_token, h]
  · intro h
    simp [OAuthConsumer.get_access_token, h]
  · intro h
    simp [OAuthConsumer.get_renew_token, h]
  · intro h
    simp [OAuthConsumer.get_renew_token, h]
  · intro now tok ref sec
    simp [OAuthConsumer.fetch_access_token, OAuthConsumer.get_access_token]

/-- Witness for C8: on a fresh consumer without tokens the accessors raise;
after a successful fetch the access token accessor returns the new token. -/
theorem get_token_contract_witness :
    ((OAuthConsumer.init "c" "s" "r" [] none none none).access_token = none
    ∧ (OAuthConsumer.init "c" "s" "r" [] none none none).get_access_token
        = .error (.valueError
          "There is no access token present. Request a token using fetch_access_token.")
    ∧ (OAuthConsumer.init "c" "s" "r" [] none none none).renew_token = none
    ∧ (OAuthConsumer.init "c" "s" "r" [] none none none).get_renew_token
        = .error (.valueError
          "There is no renew token present. Request a token using fetch_renew_token.")
    ∧ ((OAuthConsumer.init "c" "s" "r" [] none none none).fetch_access_token 7
        (.ok ⟨some "AT1", some "RT1", some 3600⟩)).1.get_access_token = .ok "AT1") :=
  ⟨rfl,
    (get_token_contract (OAuthConsumer.init "c" "s" "r" [] none none none) "").1 rfl,
    rfl,
    (get_token_contract (OAuthConsumer.init "c" "s" "r" [] none none none) "").2.2.1 rfl,
    ((get_token_contract (OAuthConsumer.init "c" "s" "r" [] none none none) "").2.2.2.2
      7 "AT1" "RT1" 3600).2⟩

/-- `_get_session` touches only the memoized session and the allocation
counter, never a token field. -/
theorem get_session_preserves_access (o : OAuthConsumer) :
    (o.get_session).2.access_token = o.access_token := by
  cases hs : o.session <;> simp [OAuthConsumer.get_session, hs]

/-- `_get_session` never writes the renew token. -/
theorem get_session_preserves_renew (o : OAuthConsumer) :
    (o.get_session).2.renew_token = o.renew_token := by
  cases hs : o.session <;> simp [OAuthConsumer.get_session, hs]

/-- `_get_session` never writes the token expiry. -/
theorem get_session_preserves_expiry (o : OAuthConsumer) :
    (o.get_session).2.token_expiry = o.token_expiry := by
  cases hs : o.session <;> simp [OAuthConsumer.get_session, hs]

/-- C9: a (successful or failing) `renew_access_token` never writes
`token_expiry` — afterwards `get_token_expiry` still returns the value the
original fetch computed (or null when tokens were supplied out-of-band) —
while `fetch_access_token` on a complete response sets the expiry to the
current time plus the server-reported lifetime. -/
theorem renew_preserves_expiry (o : OAuthConsumer)
    (resp : Except PyExc TokenResponse) :
    ((o.renew_access_token resp).1.token_expiry = o.token_expiry)
    ∧ ((o.renew_access_token resp).1.get_token_expiry = o.get_token_expiry)
    ∧ (o.get_token_expiry = o.token_expiry)
    ∧ (∀ now : Int, ∀ tok ref : String, ∀ sec : Int,
        (o.fetch_access_token now
          (.ok ⟨some tok, some ref, some sec⟩)).1.get_token_expiry
          = some (now + sec)) := by
  have key : (o.renew_access_token resp).1.token_expiry = o.token_expiry := by
    cases resp with
    | error e =>
      simp [OAuthConsumer.renew_access_token, get_session_preserves_expiry]
    | ok r =>
      cases hr : r.access_token <;> cases hr' : r.refresh_token <;>
        simp [OAuthConsumer.renew_access_token, hr, hr',
          get_session_preserves_expiry]
  refine ⟨key, ?_, rfl, ?_⟩
  · simpa [OAuthConsumer.get_token_expiry] using key
  · intro now tok ref sec
    simp [OAuthConsumer.fetch_access_token, OAuthConsumer.get_token_expiry]

/-- A token-endpoint response carrying an access token but no refresh token
(the key is absent from the returned dictionary). -/
def partialResp : TokenResponse :=
  { access_token := some "newA", refresh_token := none, expires_in := none }

/-- C3 counterexample: on a consumer holding tokens ("oldA", "oldR"), a
token-endpoint response with an `access_token` but no `refresh_token` makes
`fetch_access_token` overwrite the access token to "newA", raise the
`KeyError`, and leave the renew token at "oldR": the pair is partially
updated, refuting the claim that every execution replaces both or neither. -/
theorem fetch_partial_update_cex :
    (sampleOAuth.fetch_access_token 0 (.ok partialResp)).1.access_token
        = some "newA"
    ∧ (sampleOAuth.fetch_access_token 0 (.ok partialResp)).1.renew_token
        = some "oldR"
    ∧ (sampleOAuth.fetch_access_token 0 (.ok partialResp)).2
        = some (PyExc.keyError "refresh_token") := by
  refine ⟨rfl, rfl, rfl⟩

/-- A token-endpoint interaction is coherent when a returned dictionary that
carries an `access_token` also carries a `refresh_token`. -/
def respCoherent : Except PyExc TokenResponse → Bool
  | .error _ => true
  | .ok r => !r.access_token.isSome || r.refresh_token.isSome

/-- C3 (amended): provided a successful token-endpoint response that carries
an `access_token` also carries a `refresh_token`, `fetch_access_token` and
`renew_access_token` each either replace both stored tokens with the
response's values or leave both previously stored tokens unchanged; the
excluded response shape (access token without refresh token) updates the
access token alone, as the counterexample shows. -/
theorem token_pair_atomicity (o : OAuthConsumer) (now : Int)
    (resp : Except PyExc TokenResponse) (h : respCoherent resp = true) :
    ((((o.fetch_access_token now resp).1.access_token = o.access_token
        ∧ (o.fetch_access_token now resp).1.renew_token = o.renew_token)
      ∨ (∃ r, resp = .ok r
          ∧ (o.fetch_access_token now resp).1.access_token = r.access_token
          ∧ (o.fetch_access_token now resp).1.renew_token = r.refresh_token))
    ∧ (((o.renew_access_token resp).1.access_token = o.access_token
        ∧ (o.renew_access_token resp).1.renew_token = o.renew_token)
      ∨ (∃ r, resp = .ok r
          ∧ (o.renew_access_token resp).1.access_token = r.access_token
          ∧ (o.renew_access_token resp).1.renew_token = r.refresh_token))) := by
  constructor
  · cases resp with
    | error e =>
      exact Or.inl ⟨get_session_preserves_access o, get_session_preserves_renew o⟩
    | ok r =>
      cases hr : r.access_token with
      | none =>
        refine Or.inl ?_
        simp [OAuthConsumer.fetch_access_token, hr,
          get_session_preserves_access, get_session_preserves_renew]
      | some tok =>
        have hr' : ∃ ref, r.refresh_token = some ref := by
          simp [respCoherent, hr] at h
          exact Option.isSome_iff_exists.mp h
        obtain ⟨ref, hr'⟩ := hr'
        refine Or.inr ⟨r, rfl, ?_⟩
        cases hsec : r.expires_in <;>
          simp [OAuthConsumer.fetch_access_token, hr, hr', hsec]
  · cases resp with
    | error e =>
      refine Or.inl ?_
      simp [OAuthConsumer.renew_access_token,
        get_session_preserves_access, get_session_preserves_renew]
    | ok r =>
      cases hr : r.access_token with
      | none =>
        refine Or.inl ?_
        simp [OAuthConsumer.renew_access_token, hr,
          get_session_preserves_access, get_session_preserves_renew]
      | some tok =>
        have hr' : ∃ ref, r.refresh_token = some ref := by
          simp [respCoherent, hr] at h
          exact Option.isSome_iff_exists.mp h
        obtain ⟨ref, hr'⟩ := hr'
        refine Or.inr ⟨r, rfl, ?_⟩
        simp [OAuthConsumer.renew_access_token, hr, hr']

/-- Witness for C3 (amended) at a complete concrete response: both tokens
are replaced together by fetch as well as by renew. -/
theorem token_pair_atomicity_witness :
    respCoherent (.ok ⟨some "AT1", some "RT1", some 3600⟩) = true
    ∧ (sampleOAuth.fetch_access_token 7
        (.ok ⟨some "AT1", some "RT1", some 3600⟩)).1.access_token = some "AT1"
    ∧ (sampleOAuth.fetch_access_token 7
        (.ok ⟨some "AT1", some "RT1", some 3600⟩)).1.renew_token = some "RT1"
    ∧ (sampleOAuth.renew_access_token
        (.ok ⟨some "AT1", some "RT1", some 3600⟩)).1.access_token = some "AT1"
    ∧ (sampleOAuth.renew_access_token
        (.ok ⟨some "AT1", some "RT1", some 3600⟩)).1.renew_token = some "RT1" :=
  have h := token_pair_atomicity sampleOAuth 7
    (.ok ⟨some "AT1", some "RT1", some 3600⟩) rfl
  ⟨rfl, rfl, rfl, rfl, rfl⟩

/-- The dictionary built in `_get_exception`, evaluated. -/
theorem errorTable_eval :
    errorTable = [((403 : Int), ErrKind.notLoggedInError),
      (406, ErrKind.unknownDeviceError), (412, ErrKind.signupError),
      (500, ErrKind.otherError)] := rfl

/-- C4: `_get_exception` maps 403 to not-authenticated, 406 to
unknown-device, 412 to signup-rejected, 500 to other-server-error, and any
other or absent code to the generic `APIError`; and a response whose
non-null `error` object carries a numeric `code` and a `message` makes
`_call` raise exactly the exception registered for that code, carrying that
message. -/
theorem error_taxonomy (n : Int) (fields efields : List (String × JV))
    (code : Int) (msg : JV) :
    APIConsumer.get_exception (some 403) = ErrKind.notLoggedInError
    ∧ APIConsumer.get_exception (some 406) = ErrKind.unknownDeviceError
    ∧ APIConsumer.get_exception (some 412) = ErrKind.signupError
    ∧ APIConsumer.get_exception (some 500) = ErrKind.otherError
    ∧ (n ∉ ([403, 406, 412, 500] : List Int) →
        APIConsumer.get_exception (some n) = ErrKind.apiError)
    ∧ APIConsumer.get_exception none = ErrKind.apiError
    ∧ (fields.lookup "error" = some (JV.jobj efields) →
        efields.lookup "code" = some (JV.jnum code) →
        efields.lookup "message" = some msg →
        handleResponse (Body.json (JV.jobj fields))
          = CallResult.raised
              (Raised.api (APIConsumer.get_exception (some code)) msg)) := by
  refine ⟨rfl, rfl, rfl, rfl, ?_, rfl, ?_⟩
  · intro hn
    simp at hn
    obtain ⟨h1, h2, h3, h4⟩ := hn
    have e1 : (n == 403) = false := by simpa using h1
    have e2 : (n == 406) = false := by simpa using h2
    have e3 : (n == 412) = false := by simpa using h3
    have e4 : (n == 500) = false := by simpa using h4
    simp [APIConsumer.get_exception, errorTable_eval, List.lookup,
      e1, e2, e3, e4]
  · intro herr hcode hmsg
    simp [handleResponse, pyContains, pySubscript, herr]
    simp [handleErrorObject, pyContains, pySubscript, hcode, hmsg,
      getExceptionJV]

/-- Witness for C4: the end-to-end scenario of the specification — the
response `{"error": {"code": 412, "message": "full"}}` raises the
signup-rejected kind with message "full" — together with an unregistered
code falling back to the generic kind. -/
theorem error_taxonomy_witness :
    APIConsumer.get_exception (some 666) = ErrKind.apiError
    ∧ ([("error", JV.jobj [("code", JV.jnum 412), ("message", JV.jstr "full")])].lookup
          "error" = some (JV.jobj [("code", JV.jnum 412), ("message", JV.jstr "full")]))
    ∧ handleResponse (Body.json (JV.jobj
        [("error", JV.jobj [("code", JV.jnum 412), ("message", JV.jstr "full")])]))
        = CallResult.raised
            (Raised.api (APIConsumer.get_exception (some 412)) (JV.jstr "full"))
    ∧ APIConsumer.get_exception (some 412) = ErrKind.signupError :=
  ⟨(error_taxonomy 666 [] [] 0 JV.jnull).2.2.2.2.1 (by decide),
    rfl,
    (error_taxonomy 666
      [("error", JV.jobj [("code", JV.jnum 412), ("message", JV.jstr "full")])]
      [("code", JV.jnum 412), ("message", JV.jstr "full")]
      412 (JV.jstr "full")).2.2.2.2.2.2 rfl rfl rfl,
    rfl⟩

/-- A malformed response body in the sense of the claim: not JSON, not a
JSON object, or an object without a `result` key that also carries no
non-null `error` object. -/
def malformedBody : Body → Bool
  | .notJson _ => true
  | .json (.jobj fields) =>
    (fields.lookup "result").isNone &&
      (match fields.lookup "error" with
        | none => true
        | some .jnull => true
        | some _ => false)
  | .json _ => true

/-- C5 counterexample: a body that is not JSON is malformed, yet `_call`
does not raise the "Invalid response from server" `APIError` for it — the
JSON decode error from `response.json()` escapes uncaught (it is raised
before the `try` block); likewise a body decoding to the JSON value `null`
is malformed (not an object) yet raises an uncaught `TypeError` from
`'error' in response_json` (line 104, also outside the `try`) instead of
the invalid-response error. -/
theorem invalid_response_cex :
    malformedBody (Body.notJson "<html>oops</html>") = true
    ∧ CallResult.isInvalidResponse
        (handleResponse (Body.notJson "<html>oops</html>")) = false
    ∧ CallResult.isSuccess
        (handleResponse (Body.notJson "<html>oops</html>")) = false
    ∧ malformedBody (Body.json JV.jnull) = true
    ∧ CallResult.isInvalidResponse (handleResponse (Body.json JV.jnull)) = false
    ∧ CallResult.isSuccess (handleResponse (Body.json JV.jnull)) = false :=
  ⟨rfl, rfl, rfl, rfl, rfl, rfl⟩

/-- C5 (amended): no malformed body is ever returned as a successful
result; a decoded JSON object lacking `result` (with `error` absent or
null) raises the "Invalid response" `APIError` carrying the `KeyError`
detail; a decoded string without the substring "error", and a decoded
array without the element "error", raise it carrying the `TypeError`
detail; but a decoded null, boolean or number raises an uncaught
`TypeError` from the `'error' in response_json` test (outside the `try`),
and a body that is not JSON at all makes the JSON decode error escape
uncaught — neither of those is wrapped in the invalid-response error. -/
theorem invalid_response_amended (body : Body)
    (fields : List (String × JV)) (s raw : String) (elems : List JV)
    (b : Bool) (m : Int) :
    (malformedBody body = true →
      CallResult.isSuccess (handleResponse body) = false)
    ∧ ((fields.lookup "result") = none →
        (fields.lookup "error" = none ∨ fields.lookup "error" = some JV.jnull) →
        handleResponse (Body.json (JV.jobj fields))
          = CallResult.raised (Raised.invalidResponse (PyExc.keyError "result")))
    ∧ (strInside "error" s = false →
        handleResponse (Body.json (JV.jstr s))
          = CallResult.raised (Raised.invalidResponse PyExc.typeError))
    ∧ (elems.any (fun e => match e with
          | .jstr s2 => s2 == "error"
          | _ => false) = false →
        handleResponse (Body.json (JV.jarr elems))
          = CallResult.raised (Raised.invalidResponse PyExc.typeError))
    ∧ (handleResponse (Body.json JV.jnull)
        = CallResult.raised (Raised.uncaught PyExc.typeError))
    ∧ (handleResponse (Body.json (JV.jbool b))
        = CallResult.raised (Raised.uncaught PyExc.typeError))
    ∧ (handleResponse (Body.json (JV.jnum m))
        = CallResult.raised (Raised.uncaught PyExc.typeError))
    ∧ (handleResponse (Body.notJson raw)
        = CallResult.raised (Raised.uncaught PyExc.jsonDecodeError)) := by
  refine ⟨?_, ?_, ?_, ?_, rfl, rfl, rfl, rfl⟩
  · intro hm
    cases body with
    | notJson _ => rfl
    | json v =>
      cases v with
      | jnull => rfl
      | jbool b => rfl
      | jnum n => rfl
      | jstr s =>
        cases h : strInside "error" s <;>
          simp [handleResponse, pyContains, pySubscript, extractResult,
            CallResult.isSuccess, h]
      | jarr elems =>
        cases h : elems.any (fun e => match e with
            | .jstr s => s == "error"
            | _ => false) <;>
          simp [handleResponse, pyContains, pySubscript, extractResult,
            CallResult.isSuccess, h]
      | jobj fs =>
        simp only [malformedBody, Bool.and_eq_true] at hm
        obtain ⟨hres0, herr⟩ := hm
        have hres : fs.lookup "result" = none :=
          Option.isNone_iff_eq_none.mp hres0
        cases he : fs.lookup "error" with
        | none =>
          simp [handleResponse, pyContains, pySubscript, extractResult,
            CallResult.isSuccess, he, hres]
        | some e =>
          rw [he] at herr
          cases e with
          | jnull =>
            simp [handleResponse, pyContains, pySubscript, extractResult,
              CallResult.isSuccess, he, hres]
          | jbool b => exact absurd herr (by simp)
          | jnum m => exact absurd herr (by simp)
          | jstr s2 => exact absurd herr (by simp)
          | jarr es => exact absurd herr (by simp)
          | jobj fs2 => exact absurd herr (by simp)
  · intro hres herr
    cases herr with
    | inl h =>
      simp [handleResponse, pyContains, pySubscript, extractResult, h, hres]
    | inr h =>
      simp [handleResponse, pyContains, pySubscript, extractResult, h, hres]
  · intro h
    simp [handleResponse, pyContains, pySubscript, extractResult, h]
  · intro h
    simp [handleResponse, pyContains, pySubscript, extractResult, h]

/-- Witness for C5 (amended): the object `{"spam": 1}` (no `result`, no
`error`) raises the invalid-response error with the `KeyError` detail,
and the string `"hi"` and array `[1]` raise it with the `TypeError`
detail. -/
theorem invalid_response_amended_witness :
    malformedBody (Body.json (JV.jobj [("spam", JV.jnum 1)])) = true
    ∧ CallResult.isSuccess
        (handleResponse (Body.json (JV.jobj [("spam", JV.jnum 1)]))) = false
    ∧ ([(("spam" : String), JV.jnum 1)].lookup "result" = none)
    ∧ handleResponse (Body.json (JV.jobj [("spam", JV.jnum 1)]))
        = CallResult.raised (Raised.invalidResponse (PyExc.keyError "result"))
    ∧ handleResponse (Body.json (JV.jstr "hi"))
        = CallResult.raised (Raised.invalidResponse PyExc.typeError)
    ∧ handleResponse (Body.json (JV.jarr [JV.jnum 1]))
        = CallResult.raised (Raised.invalidResponse PyExc.typeError) :=
  ⟨rfl,
    (invalid_response_amended (Body.json (JV.jobj [("spam", JV.jnum 1)]))
      [("spam", JV.jnum 1)] "" "" [] false 0).1 rfl,
    rfl,
    (invalid_response_amended (Body.json (JV.jobj [("spam", JV.jnum 1)]))
      [("spam", JV.jnum 1)] "" "" [] false 0).2.1 rfl (Or.inl rfl),
    (invalid_response_amended (Body.json (JV.jobj [("spam", JV.jnum 1)]))
      [] "hi" "" [] false 0).2.2.1 rfl,
    (invalid_response_amended (Body.json (JV.jobj [("spam", JV.jnum 1)]))
      [] "" "" [JV.jnum 1] false 0).2.2.2.1 rfl⟩

/-- C10: the `Authorization: Bearer <token>` header is attached exactly when
the API consumer's access token is truthy; an empty-string token — which is
non-null, so the coordinator accepts and propagates it into the API
consumer — produces headers identical to those of a consumer with no token
at all (no `Authorization` header). -/
theorem auth_header_only_when_truthy (tok : Option String) (pm : Bool)
    (c : IAConnector) (a : APIConsumer) (rt : Option String) :
    ((buildHeaders tok pm).lookup "Authorization"
      = if truthyOptStr tok then some ("Bearer " ++ tok.getD "") else none)
    ∧ (buildHeaders (some "") pm = buildHeaders none pm)
    ∧ (c.api = some a →
        (c.propagate_tokens (some "") rt Src.fromOAuth).api
          = some { a with access_token := some "" }) := by
  refine ⟨?_, ?_, ?_⟩
  · cases tok with
    | none =>
      cases pm <;> simp [buildHeaders, truthyOptStr, updateKey, List.lookup]
    | some s =>
      by_cases hs : s = ""
      · subst hs
        cases pm <;> simp [buildHeaders, truthyOptStr, updateKey, List.lookup]
      · cases pm <;>
          simp [buildHeaders, truthyOptStr, updateKey, List.lookup, hs]
  · cases pm <;> simp [buildHeaders, truthyOptStr, updateKey]
  · intro ha
    simp [IAConnector.propagate_tokens, ha]

/-- Witness for C10: a concrete coordinator propagates the empty token into
the API consumer, and the resulting headers carry no Authorization. -/
theorem auth_header_only_when_truthy_witness :
    ((buildHeaders (some "") false).lookup "Authorization"
      = if truthyOptStr (some "") then some ("Bearer " ++ (some "").getD "")
        else none)
    ∧ (buildHeaders (some "") false = buildHeaders none false)
    ∧ (sampleConn.api = some sampleAPI)
    ∧ ((sampleConn.propagate_tokens (some "") none Src.fromOAuth).api
        = some { sampleAPI with access_token := some "" }) :=
  ⟨(auth_header_only_when_truthy (some "") false sampleConn sampleAPI none).1,
    (auth_header_only_when_truthy (some "") false sampleConn sampleAPI none).2.1,
    rfl,
    (auth_header_only_when_truthy (some "") false sampleConn sampleAPI none).2.2
      rfl⟩
